import Mathlib

/-!
Verification of the Insight Aggregation & Risk Classification Engine of the
inet-ready-data-science repository, shallowly embedded in Lean 4.

JavaScript numbers are modelled as exact rationals, timestamps (epoch
milliseconds, the output of `Date.parse`) as integers, and the host
environment (`Date.now`, `Date.parse`, locale formatting) as an explicit
record of parameters.  Fallible file reads / top-level JSON parses are
modelled as `Option`-valued inputs, and snapshot assembly returns
`Except Unit InsightSnapshot`.
-/

attribute [local semireducible] Rat.add Rat.mul Rat.inv Rat.sub Rat.ofScientific

namespace InetReady

/-- JavaScript `Math.round`: rounds half toward positive infinity. -/
def jsRound (q : ℚ) : ℤ := ⌊q + 1 / 2⌋

/-- The closed six-value risk enumeration from `insights.ts`. -/
inductive RiskLevel where
  | unknown
  | comfort
  | caution
  | moderate
  | high
  | extreme
deriving DecidableEq, Repr

/-- Label component of the `RISK_LABELS` table in `insights.ts`.  The source
record also carries a numeric `cutoff` field, but no code ever reads it. -/
def RISK_LABELS (level : RiskLevel) : String :=
  match level with
  | .unknown => "Status Unknown"
  | .comfort => "Comfort"
  | .caution => "Caution"
  | .moderate => "Heat Alert"
  | .high => "Danger"
  | .extreme => "Extreme"

/-- The `VULNERABLE_MULTIPLIER` lookup table from `insights.ts`. -/
def VULNERABLE_MULTIPLIER (level : RiskLevel) : ℚ :=
  match level with
  | .unknown => 0.12
  | .comfort => 0.08
  | .caution => 0.18
  | .moderate => 0.34
  | .high => 0.55
  | .extreme => 0.72

/-- Result type of `classifyRiskLevel` (the inline `{ level, label }` object). -/
structure RiskClassification where
  level : RiskLevel
  label : String
deriving DecidableEq, Repr

/-- Model of `classifyRiskLevel` from `insights.ts`: `null` maps to `unknown`, otherwise
the value is compared against the 54 / 41 / 32 / 27 cutoffs in order. -/
def classifyRiskLevel (value : Option ℚ) : RiskClassification :=
  match value with
  | none => ⟨.unknown, RISK_LABELS .unknown⟩
  | some v =>
    if 54 ≤ v then ⟨.extreme, RISK_LABELS .extreme⟩
    else if 41 ≤ v then ⟨.high, RISK_LABELS .high⟩
    else if 32 ≤ v then ⟨.moderate, RISK_LABELS .moderate⟩
    else if 27 ≤ v then ⟨.caution, RISK_LABELS .caution⟩
    else ⟨.comfort, RISK_LABELS .comfort⟩

/-- The hydrated demographic record type from `demographics.ts`. -/
structure DemographicRecord where
  city : String
  classification : String
  district : Option String
  population2020 : Option ℚ
  population2015 : Option ℚ
  annualGrowthRatePct : Option ℚ
  areaKm2 : Option ℚ
  densityPerKm2 : Option ℚ
  barangays : Option ℚ
  provincePopulationSharePct : Option ℚ
  sourceUrl : String
  collectedAt : String
deriving DecidableEq, Repr

/-- The `vulnerablePopulation` closure inside `buildInsightSnapshot`:
`if (!demographic?.population2020) return null` (so a missing record, a
non-parsing population field, and a population of `0` — all falsy — yield
`null`), otherwise `Math.round(population2020 * multiplier)`. -/
def vulnerablePopulationOf (demographic : Option DemographicRecord)
    (level : RiskLevel) : Option ℤ :=
  match demographic with
  | none => none
  | some d =>
    match d.population2020 with
    | none => none
    | some p =>
      if p = 0 then none else some (jsRound (p * VULNERABLE_MULTIPLIER level))

/-- The `coolingCenterLoadPct` expression in `buildInsightSnapshot`:
`vulnerablePopulation ? Math.min(99, Math.round(40 + multiplier * 60)) : null`,
so both a `null` and a `0` vulnerable count (falsy) yield `null`. -/
def coolingCenterLoadPctOf (vulnerablePopulation : Option ℤ)
    (level : RiskLevel) : Option ℤ :=
  match vulnerablePopulation with
  | none => none
  | some v =>
    if v = 0 then none
    else some (min 99 (jsRound (40 + VULNERABLE_MULTIPLIER level * 60)))

/-! ### Color mapper (`heat-index-colors.ts`) -/

/-- RGB triple; channels are rationals because `mixChannel` interpolates
before `rgbToHex` rounds. -/
structure RGB where
  r : ℚ
  g : ℚ
  b : ℚ
deriving DecidableEq, Repr

/-- One `{ value, color }` stop of the gradient. -/
structure ColorStop where
  value : ℚ
  color : String
deriving DecidableEq, Repr

/-- Model of `HEAT_INDEX_COLOR_STOPS` from `heat-index-colors.ts`. -/
def HEAT_INDEX_COLOR_STOPS : List ColorStop :=
  [⟨20, "#0ea5e9"⟩, ⟨26, "#22d3ee"⟩, ⟨30, "#facc15"⟩, ⟨34, "#f97316"⟩,
   ⟨40, "#fb923c"⟩, ⟨46, "#ef4444"⟩, ⟨55, "#7f1d1d"⟩]

def DEFAULT_HEAT_COLOR : String := "#475569"

/-- Model of `hex.replace("#", "")`: `String.prototype.replace` with a string pattern
removes only the first occurrence. -/
def removeFirst (target : Char) : List Char → List Char
  | [] => []
  | c :: rest => if c = target then rest else c :: removeFirst target rest

/-- Numeric value of one hexadecimal digit, upper or lower case. -/
def hexVal (c : Char) : Option ℕ :=
  if '0' ≤ c ∧ c ≤ '9' then some (c.toNat - 48)
  else if 'a' ≤ c ∧ c ≤ 'f' then some (c.toNat - 87)
  else if 'A' ≤ c ∧ c ≤ 'F' then some (c.toNat - 55)
  else none

/-- Model of `Number.parseInt(s, 16)`: parses the longest prefix of hexadecimal
digits; an empty prefix gives `NaN` (modelled as `none`). -/
def parseIntHex (cs : List Char) : Option ℕ :=
  let ds := cs.takeWhile (fun c => (hexVal c).isSome)
  if ds.isEmpty then none
  else some (ds.foldl (fun acc c => acc * 16 + ((hexVal c).getD 0)) 0)

/-- Model of `hexToRgb` from `heat-index-colors.ts`.  On a `NaN` parse the JS bitwise
operations `NaN >> k & 255` all evaluate to `0`. -/
def hexToRgb (hex : String) : RGB :=
  let sanitized := removeFirst '#' hex.data
  if sanitized.length ≠ 6 then ⟨71, 85, 105⟩
  else
    match parseIntHex sanitized with
    | none => ⟨0, 0, 0⟩
    | some value =>
      ⟨((value >>> 16) &&& 255 : ℕ), ((value >>> 8) &&& 255 : ℕ),
       ((value &&& 255 : ℕ) : ℚ)⟩

/-- Digit character for a value in `[0, 15]`, as produced by
`Number.prototype.toString(16)` (lower case). -/
def hexDigitChar (n : ℕ) : Char :=
  if n < 10 then Char.ofNat (48 + n) else Char.ofNat (87 + n)

/-- Two-digit lower-case hex rendering of a byte
(`toString(16).padStart(2, "0")`). -/
def toHex2 (n : ℕ) : List Char := [hexDigitChar (n / 16), hexDigitChar (n % 16)]

/-- The `clamp` helper inside `rgbToHex`:
`Math.max(0, Math.min(255, Math.round(component)))`. -/
def clampByte (component : ℚ) : ℕ := (max 0 (min 255 (jsRound component))).toNat

/-- Model of `rgbToHex` from `heat-index-colors.ts`. -/
def rgbToHex (c : RGB) : String :=
  ⟨'#' :: (toHex2 (clampByte c.r) ++ toHex2 (clampByte c.g) ++ toHex2 (clampByte c.b))⟩

/-- The `mixChannel` arrow function inside `interpolateColors`
(with the closed-over ratio made an explicit argument). -/
def mixChannel (a b t : ℚ) : ℚ := a + (b - a) * t

/-- Model of `interpolateColors` from `heat-index-colors.ts`. -/
def interpolateColors (colorA colorB : String) (t : ℚ) : String :=
  let start := hexToRgb colorA
  let stop := hexToRgb colorB
  rgbToHex ⟨mixChannel start.r stop.r t, mixChannel start.g stop.g t,
            mixChannel start.b stop.b t⟩

/-- The bracketing-pair loop inside `heatIndexColor`: walk adjacent stop
pairs in order, interpolating at the first pair enclosing the value;
falling off the end yields `DEFAULT_HEAT_COLOR`. -/
def interpolateInStops (value : ℚ) : List ColorStop → String
  | current :: next :: rest =>
    if current.value ≤ value ∧ value ≤ next.value then
      let span := next.value - current.value
      let t := if span = 0 then 0 else (value - current.value) / span
      interpolateColors current.color next.color t
    else interpolateInStops value (next :: rest)
  | _ => DEFAULT_HEAT_COLOR

/-- Model of `heatIndexColor` from `heat-index-colors.ts` (`null`/`NaN` is the `none`
case). -/
def heatIndexColor (value : Option ℚ) : String :=
  match value with
  | none => DEFAULT_HEAT_COLOR
  | some v =>
    match HEAT_INDEX_COLOR_STOPS with
    | [] => DEFAULT_HEAT_COLOR
    | first :: restStops =>
      if v ≤ first.value then first.color
      else
        let last := (first :: restStops).getLastD first
        if last.value ≤ v then last.color
        else interpolateInStops v (first :: restStops)

/-! ### String and number primitives

Character-list implementations of the JavaScript string operations used by
the parsers (`trim`, `toLowerCase`, `split`), kept structurally recursive so
concrete witnesses evaluate inside the kernel. -/

/-- Model of `String.prototype.trim`. -/
def trimCL (cs : List Char) : List Char :=
  ((cs.dropWhile Char.isWhitespace).reverse.dropWhile Char.isWhitespace).reverse

def jsTrim (s : String) : String := ⟨trimCL s.data⟩

/-- Model of `String.prototype.toLowerCase` (ASCII part, all the data is ASCII). -/
def toLowerS (s : String) : String := ⟨s.data.map Char.toLower⟩

/-- Model of `String.prototype.split` with a single-character separator; always
returns at least one (possibly empty) group, like JS. -/
def splitOnChar (sep : Char) : List Char → List (List Char)
  | [] => [[]]
  | c :: rest =>
    match splitOnChar sep rest with
    | [] => [[]]
    | g :: gs => if c = sep then [] :: g :: gs else (c :: g) :: gs

/-- Model of `split(/\r?\n/)`: split on newlines, a `\r` immediately before the
newline belongs to the separator. -/
def stripCR (line : List Char) : List Char :=
  match line.reverse with
  | '\r' :: rest => rest.reverse
  | _ => line

def splitLinesCL (cs : List Char) : List (List Char) :=
  (splitOnChar '\n' cs).map stripCR

/-- Value of a decimal digit string. -/
def digitsToNat (ds : List Char) : ℕ :=
  ds.foldl (fun acc c => acc * 10 + (c.toNat - 48)) 0

/-- Rational value of `-?intPart(.fracPart)?` (exact decimal value). -/
def decToRat (neg : Bool) (intPart fracPart : List Char) : ℚ :=
  let den := 10 ^ fracPart.length
  let num := digitsToNat intPart * den + digitsToNat fracPart
  let q := mkRat (Int.ofNat num) den
  if neg then -q else q

/-- Exact scaling by a signed power of ten (the exponent part of a JS
numeric literal). -/
def scalePow10 (q : ℚ) (e : ℤ) : ℚ :=
  match e with
  | .ofNat n => q * (Int.ofNat (10 ^ n) : ℚ)
  | .negSucc n => q / (Int.ofNat (10 ^ (n + 1)) : ℚ)

/-- Try to match the regex `-?\d+(?:\.\d+)?` anchored at the head of the
character list (the per-position attempt of `String.prototype.match`),
returning the numeric value of the matched text. -/
def matchNumberAt (cs : List Char) : Option ℚ :=
  let negRest : Bool × List Char :=
    match cs with
    | '-' :: r => (true, r)
    | r => (false, r)
  let ds := negRest.2.takeWhile Char.isDigit
  if ds.isEmpty then none
  else
    match negRest.2.drop ds.length with
    | '.' :: r2 =>
      let fs := r2.takeWhile Char.isDigit
      if fs.isEmpty then some (decToRat negRest.1 ds [])
      else some (decToRat negRest.1 ds fs)
    | _ => some (decToRat negRest.1 ds [])

/-- Leftmost match of `-?\d+(?:\.\d+)?` in the string, as found by
`trimmed.match(numberPattern)`. -/
def firstNumberMatch : List Char → Option ℚ
  | [] => none
  | c :: rest =>
    match matchNumberAt (c :: rest) with
    | some q => some q
    | none => firstNumberMatch rest

/-- Model of `parseNumber` from `demographics.ts`: trim, strip every comma, then take
the first embedded decimal number; anything else is `null`.  The matched text
is a plain decimal numeral, so the final `Number(...)` is exact and always
finite. -/
def parseNumber (value : String) : Option ℚ :=
  let trimmed := (jsTrim value).data.filter (· ≠ ',')
  if trimmed.isEmpty then none
  else firstNumberMatch trimmed

/-- Exponent suffix of a JS numeric literal (after the `e`/`E`); must consume
the whole remainder. -/
def parseExponent (cs : List Char) : Option ℤ :=
  match cs with
  | '+' :: ds =>
    if ds ≠ [] ∧ ds.all Char.isDigit then some (digitsToNat ds) else none
  | '-' :: ds =>
    if ds ≠ [] ∧ ds.all Char.isDigit then some (-(digitsToNat ds : ℤ)) else none
  | ds =>
    if ds ≠ [] ∧ ds.all Char.isDigit then some (digitsToNat ds) else none

/-- Unsigned part of a JS decimal numeric string:
`d+ | d+.d* | .d+`, with an optional exponent; must consume everything. -/
def parseUnsigned (cs : List Char) : Option ℚ :=
  let intDs := cs.takeWhile Char.isDigit
  match cs.drop intDs.length with
  | [] => if intDs.isEmpty then none else some (decToRat false intDs [])
  | '.' :: r2 =>
    let fr := r2.takeWhile Char.isDigit
    if intDs.isEmpty ∧ fr.isEmpty then none
    else
      let base : ℚ := decToRat false intDs fr
      match r2.drop fr.length with
      | [] => some base
      | 'e' :: r3 => (parseExponent r3).map (scalePow10 base)
      | 'E' :: r3 => (parseExponent r3).map (scalePow10 base)
      | _ => none
  | 'e' :: r3 =>
    if intDs.isEmpty then none
    else (parseExponent r3).map (scalePow10 (decToRat false intDs []))
  | 'E' :: r3 =>
    if intDs.isEmpty then none
    else (parseExponent r3).map (scalePow10 (decToRat false intDs []))
  | _ => none

/-- The JS `Number(string)` conversion on the decimal forms occurring in this
system's data: whitespace-trimmed, optionally signed decimal with optional
exponent.  `none` models a non-finite result (`NaN` or `±Infinity`), which is
exactly the distinction the source tests with `Number.isFinite`. -/
def jsNumber (s : String) : Option ℚ :=
  match (jsTrim s).data with
  | [] => some 0
  | '+' :: r => if r = "Infinity".data then none else parseUnsigned r
  | '-' :: r =>
    if r = "Infinity".data then none else (parseUnsigned r).map Neg.neg
  | cs => if cs = "Infinity".data then none else parseUnsigned cs

/-- The `toNumber` helper shared by `toWeatherRecord` and `toForecastRecord`:
empty string is `null`, otherwise `Number(value)` guarded by
`Number.isFinite`. -/
def toNumber (value : String) : Option ℚ :=
  if value = "" then none else jsNumber value

/-! ### Tabular parser (`parseCsv`, identical in `insights.ts` and
`demographics.ts`) -/

structure CsvTable where
  headers : List String
  rows : List (List String)
deriving DecidableEq, Repr

/-- Model of `parseCsv`: trim the document, split into lines, shift the header line
(empty header text means an empty table), split every line on commas;
headers are trimmed, row fields are not (converters trim them later). -/
def parseCsv (contents : String) : CsvTable :=
  match splitLinesCL (trimCL contents.data) with
  | [] => ⟨[], []⟩
  | headerLine :: rest =>
    if headerLine.isEmpty then ⟨[], []⟩
    else
      ⟨(splitOnChar ',' headerLine).map (fun h => jsTrim ⟨h⟩),
       rest.map (fun line => (splitOnChar ',' line).map (fun f => (⟨f⟩ : String)))⟩

/-- The header-indexed `record` object built by the converters
(`record[header] = row[index]?.trim() ?? ""`): for a duplicated header the
last column wins; a header never assigned reads as the falsy `""`
(JS `undefined` is falsy at every use site). -/
def getField (headers row : List String) (key : String) : String :=
  (headers.zip row).foldl (fun acc hv => if hv.1 = key then jsTrim hv.2 else acc) ""

/-! ### Data model of the loaders -/

structure HeatIndexPoint where
  city : String
  timestamp : String
  temperature_c : ℚ
  relative_humidity : ℚ
  heat_index_c : ℚ
  heat_index_f : Option ℚ
  apparent_temperature_c : Option ℚ
deriving DecidableEq, Repr

structure HourlyHeatIndexCity where
  city : String
  latitude : ℚ
  longitude : ℚ
  current : Option HeatIndexPoint
  hourly : List HeatIndexPoint
deriving DecidableEq, Repr

/-- The top-level hourly JSON document; `generated_at`/`timezone` are read
through `?? null`, so they may be absent. -/
structure HourlyHeatIndexPayload where
  generated_at : Option String
  timezone : Option String
  unit : String
  cities : List HourlyHeatIndexCity
deriving DecidableEq, Repr

structure WeatherHistoryPoint where
  city : String
  date : String
  current : Option ℚ
  average : Option ℚ
deriving DecidableEq, Repr

structure ForecastPoint where
  date : String
  predicted : Option ℚ
  actual : Option ℚ
  residual : Option ℚ
deriving DecidableEq, Repr

/-- Model of the intermediate forecast record: a forecast point together
with its locality. -/
structure CityForecastPoint where
  city : String
  date : String
  predicted : Option ℚ
  actual : Option ℚ
  residual : Option ℚ
deriving DecidableEq, Repr

/-- The host environment threaded through the engine: `Date.parse` (with
`none` for a `NaN` result), `Date.now()`, the start-of-today instant
`new Date(y, m, d).getTime()`, and the locale time formatter. -/
structure JsEnv where
  dateParse : String → Option ℤ
  now : ℤ
  todayStart : ℤ
  fmtTime : ℤ → String

/-- Model of `Array.prototype.slice(start)` with a possibly negative start index. -/
def jsSliceFrom (l : List α) (start : ℤ) : List α :=
  let len : ℤ := l.length
  let s := if start < 0 then max (len + start) 0 else min start len
  l.drop s.toNat

/-- Model of `Array.prototype.slice(start, stop)` (both ends normalised as in JS). -/
def jsSliceRange (l : List α) (start stop : ℤ) : List α :=
  let len : ℤ := l.length
  let s := if start < 0 then max (len + start) 0 else min start len
  let e := if stop < 0 then max (len + stop) 0 else min stop len
  (l.take e.toNat).drop s.toNat

/-! ### Dataset loaders -/

/-- Model of `toWeatherRecord` from `insights.ts`. -/
def toWeatherRecord (row headers : List String) : Option WeatherHistoryPoint :=
  if row.length ≠ headers.length then none
  else
    let city := getField headers row "city"
    let date := getField headers row "date"
    if city = "" ∨ date = "" then none
    else
      some ⟨city, date, toNumber (getField headers row "apparent_temperature_max"),
            toNumber (getField headers row "temperature_2m_max")⟩

/-- Model of `toForecastRecord` from `insights.ts`. -/
def toForecastRecord (row headers : List String) : Option CityForecastPoint :=
  if row.length ≠ headers.length then none
  else
    let city := getField headers row "city"
    let date := getField headers row "date"
    if city = "" ∨ date = "" then none
    else
      some ⟨city, date, toNumber (getField headers row "heat_index_pred"),
            toNumber (getField headers row "heat_index_actual"),
            toNumber (getField headers row "residual")⟩

/-- The parse/convert/locality-filter phase of `loadWeatherHistory`
(everything before the trailing-window slice). -/
def weatherRecordsFor (raw city : String) : List WeatherHistoryPoint :=
  let t := parseCsv raw
  if t.headers.isEmpty then []
  else
    (t.rows.filterMap (fun row => toWeatherRecord row t.headers)).filter
      (fun record => toLowerS record.city = toLowerS city)

/-- Model of `loadWeatherHistory` from `insights.ts` (file contents passed in). -/
def loadWeatherHistory (raw city : String) (days : ℤ) : List WeatherHistoryPoint :=
  jsSliceFrom (weatherRecordsFor raw city) (-days)

/-- The parse/convert/locality-filter phase of `loadForecastSeries`. -/
def forecastRecordsFor (raw city : String) : List CityForecastPoint :=
  let t := parseCsv raw
  if t.headers.isEmpty then []
  else
    (t.rows.filterMap (fun row => toForecastRecord row t.headers)).filter
      (fun record => toLowerS record.city = toLowerS city)

/-- The sort comparator in `loadForecastSeries`: `0` when either date fails
to parse, otherwise the signed difference of the instants. -/
def forecastCmp (env : JsEnv) (a b : CityForecastPoint) : ℤ :=
  match env.dateParse a.date, env.dateParse b.date with
  | some ta, some tb => ta - tb
  | _, _ => 0

/-- Stable insertion step for `Array.prototype.sort` with a comparator
(a stable sort, as mandated since ES2019). -/
def insertByCmp (cmp : α → α → ℤ) (x : α) : List α → List α
  | [] => [x]
  | y :: ys => if cmp x y ≤ 0 then x :: y :: ys else y :: insertByCmp cmp x ys

/-- Stable sort by a comparator. -/
def sortByCmp (cmp : α → α → ℤ) (l : List α) : List α :=
  l.foldr (insertByCmp cmp) []

/-- Model of `loadForecastSeries` from `insights.ts`: filter by locality, sort by
date, prefer points at or after the start of today, otherwise fall back to
the trailing `days` entries, and cap the window at `days` points. -/
def loadForecastSeries (env : JsEnv) (raw city : String) (days : ℤ) :
    List ForecastPoint :=
  let records := forecastRecordsFor raw city
  if records.isEmpty then []
  else
    let sorted := sortByCmp (forecastCmp env) records
    let upcoming := sorted.filter fun record =>
      match env.dateParse record.date with
      | some parsed => decide (env.todayStart ≤ parsed)
      | none => false
    let window := if upcoming.isEmpty then jsSliceFrom sorted (-days) else upcoming
    (jsSliceRange window 0 days).map
      (fun r => ⟨r.date, r.predicted, r.actual, r.residual⟩)

/-! ### Demographics loader (`demographics.ts`) -/

def DEMOGRAPHIC_HEADERS : List String :=
  ["city", "classification", "district", "population_2020", "population_2015",
   "annual_growth_rate_pct", "area_km2", "density_per_km2", "barangays",
   "province_population_share_pct", "source_url", "collected_at"]

/-- The raw (all-string) demographic record, one field per known header. -/
structure DemographicRecordRaw where
  city : String
  classification : String
  district : String
  population_2020 : String
  population_2015 : String
  annual_growth_rate_pct : String
  area_km2 : String
  density_per_km2 : String
  barangays : String
  province_population_share_pct : String
  source_url : String
  collected_at : String
deriving DecidableEq, Repr

/-- Model of `toRecord` from `demographics.ts`: reject ragged rows; the record is
valid only when every known header occurs in the header row. -/
def toRecord (row headers : List String) : Option DemographicRecordRaw :=
  if row.length ≠ headers.length then none
  else if DEMOGRAPHIC_HEADERS.all (fun h => headers.contains h) then
    some ⟨getField headers row "city", getField headers row "classification",
          getField headers row "district", getField headers row "population_2020",
          getField headers row "population_2015",
          getField headers row "annual_growth_rate_pct",
          getField headers row "area_km2", getField headers row "density_per_km2",
          getField headers row "barangays",
          getField headers row "province_population_share_pct",
          getField headers row "source_url", getField headers row "collected_at"⟩
  else none

/-- Model of `hydrateRecord` from `demographics.ts` (`record.district || null` maps
the empty string to `null`). -/
def hydrateRecord (record : DemographicRecordRaw) : DemographicRecord :=
  { city := record.city
    classification := record.classification
    district := if record.district = "" then none else some record.district
    population2020 := parseNumber record.population_2020
    population2015 := parseNumber record.population_2015
    annualGrowthRatePct := parseNumber record.annual_growth_rate_pct
    areaKm2 := parseNumber record.area_km2
    densityPerKm2 := parseNumber record.density_per_km2
    barangays := parseNumber record.barangays
    provincePopulationSharePct := parseNumber record.province_population_share_pct
    sourceUrl := record.source_url
    collectedAt := record.collected_at }

/-- Model of `loadDemographics` from `demographics.ts` (file contents passed in);
returns the records and the `updatedAt` stamp of the first record. -/
def loadDemographics (raw : String) : List DemographicRecord × Option String :=
  let t := parseCsv raw
  if t.headers.isEmpty then ([], none)
  else
    let records := (t.rows.filterMap (fun row => toRecord row t.headers)).map
      hydrateRecord
    (records, records.head?.map (·.collectedAt))

/-- Model of `findDemographicRecord` from `demographics.ts`: exact case-insensitive
locality match. -/
def findDemographicRecord (raw city : String) : Option DemographicRecord :=
  (loadDemographics raw).1.find? (fun record => toLowerS record.city = toLowerS city)

/-! ### Peak/window analyzers (`insights.ts`) -/

/-- The `futurePoints` filter inside `computePeakNext24h`: parseable
timestamps within `[now, now + 24h]` (milliseconds). -/
def futurePointsOf (env : JsEnv) (hourly : List HeatIndexPoint) :
    List HeatIndexPoint :=
  hourly.filter fun point =>
    match env.dateParse point.timestamp with
    | none => false
    | some ts => decide (env.now ≤ ts ∧ ts ≤ env.now + 24 * 60 * 60 * 1000)

/-- The `windowPoints` selection: the forward window if non-empty, else
`hourly.slice(-24)`. -/
def peakWindowOf (env : JsEnv) (hourly : List HeatIndexPoint) :
    List HeatIndexPoint :=
  if (futurePointsOf env hourly).isEmpty then jsSliceFrom hourly (-24)
  else futurePointsOf env hourly

/-- The reducer of `computePeakNext24h`:
`point.heat_index_c > peak.heat_index_c ? point : peak`. -/
def peakStep (peak point : HeatIndexPoint) : HeatIndexPoint :=
  if peak.heat_index_c < point.heat_index_c then point else peak

/-- Model of `computePeakNext24h` from `insights.ts` (`reduce` with the first window
point as initial accumulator). -/
def computePeakNext24h (env : JsEnv) (hourly : List HeatIndexPoint) :
    Option HeatIndexPoint :=
  if hourly.isEmpty then none
  else
    match peakWindowOf env hourly with
    | [] => none
    | w :: ws => some ((w :: ws).foldl peakStep w)

/-- Model of `countHighRiskHours` from `insights.ts`: parseable timestamps within
`[now - 24h, now]` whose heat index is at least 41. -/
def countHighRiskHours (env : JsEnv) (hourly : List HeatIndexPoint) : ℕ :=
  (hourly.filter fun point =>
    match env.dateParse point.timestamp with
    | none => false
    | some ts =>
      if ts < env.now - 24 * 60 * 60 * 1000 ∨ env.now < ts then false
      else decide ((41 : ℚ) ≤ point.heat_index_c)).length

/-! ### Snapshot assembler (`buildInsightSnapshot`) -/

/-- The `peakNext24h` sub-object of the snapshot. -/
structure PeakNext24h where
  value : Option ℚ
  timestamp : Option String
deriving DecidableEq, Repr

structure InsightSnapshot where
  city : String
  generatedAt : Option String
  timezone : Option String
  current : Option HeatIndexPoint
  currentRiskLabel : String
  riskLevel : RiskLevel
  updatedLabel : Option String
  weeklyAverageHeatIndex : Option ℚ
  peakNext24h : PeakNext24h
  highRiskHours24h : ℕ
  demographic : Option DemographicRecord
  vulnerablePopulation : Option ℤ
  coolingCenterLoadPct : Option ℤ
  hourlyPoints : List HeatIndexPoint
  weatherHistory : List WeatherHistoryPoint
  forecastPoints : List ForecastPoint
deriving DecidableEq, Repr

/-- The four raw dataset sources consumed by one assembly call: `none`
models a file that cannot be read or (for the hourly JSON) whose top-level
parse throws. -/
structure InsightSources where
  hourly : Option HourlyHeatIndexPayload
  weatherHistory : Option String
  predictions : Option String
  demographics : Option String

/-- Model of `findHourlyEntry` from `insights.ts`. -/
def findHourlyEntry (payload : HourlyHeatIndexPayload) (city : String) :
    Option HourlyHeatIndexCity :=
  payload.cities.find? (fun entry => toLowerS entry.city = toLowerS city)

/-- Model of `cityEntry?.hourly ?? []`. -/
def hourlyPointsOf (cityEntry : Option HourlyHeatIndexCity) :
    List HeatIndexPoint :=
  (cityEntry.map (·.hourly)).getD []

/-- Model of `cityEntry?.current ?? hourlyPoints.at(-1) ?? null`. -/
def currentPointOf (cityEntry : Option HourlyHeatIndexCity)
    (hourlyPoints : List HeatIndexPoint) : Option HeatIndexPoint :=
  match cityEntry.bind (·.current) with
  | some c => some c
  | none => hourlyPoints.getLast?

/-- Model of `Number(avg.toFixed(1))`: round to one decimal, half up. -/
def numberToFixed1 (q : ℚ) : ℚ := (jsRound (q * 10) : ℚ) / 10

/-- The `weeklyAverage` closure in `buildInsightSnapshot`. -/
def weeklyAverageOf (weatherHistory : List WeatherHistoryPoint) : Option ℚ :=
  let values := weatherHistory.filterMap (·.current)
  if values.isEmpty then none
  else some (numberToFixed1 ((values.foldl (· + ·) 0) / (values.length : ℚ)))

/-- The `updatedLabel` closure: falsy (empty) timestamp or a `NaN` parse
yields `null`, otherwise the locale-formatted time. -/
def updatedLabelOf (env : JsEnv) (currentPoint : Option HeatIndexPoint) :
    Option String :=
  match currentPoint with
  | none => none
  | some p =>
    if p.timestamp = "" then none
    else
      match env.dateParse p.timestamp with
      | none => none
      | some parsed => some (env.fmtTime parsed)

/-- Model of `buildInsightSnapshot` from `insights.ts`.  Each dataset is awaited in
source order; a hard read/parse failure aborts the whole assembly
(`Except.error`), everything downstream is pure derivation. -/
def buildInsightSnapshot (env : JsEnv) (src : InsightSources) (city : String)
    (days : ℤ) : Except Unit InsightSnapshot :=
  match src.hourly with
  | none => .error ()
  | some hourlyPayload =>
    match src.weatherHistory with
    | none => .error ()
    | some whRaw =>
      match src.predictions with
      | none => .error ()
      | some predRaw =>
        match src.demographics with
        | none => .error ()
        | some demRaw =>
          let cityEntry := findHourlyEntry hourlyPayload city
          let weatherHistory := loadWeatherHistory whRaw city days
          let forecastPoints := loadForecastSeries env predRaw city days
          let demographic := findDemographicRecord demRaw city
          let hourlyPoints := hourlyPointsOf cityEntry
          let currentPoint := currentPointOf cityEntry hourlyPoints
          let cls := classifyRiskLevel (currentPoint.map (·.heat_index_c))
          let peakPoint := computePeakNext24h env hourlyPoints
          let weeklyAverage := weeklyAverageOf weatherHistory
          let highRiskHours24h := countHighRiskHours env hourlyPoints
          let vulnerablePopulation := vulnerablePopulationOf demographic cls.level
          let coolingCenterLoadPct :=
            coolingCenterLoadPctOf vulnerablePopulation cls.level
          let updatedLabel := updatedLabelOf env currentPoint
          .ok
            { city := city
              generatedAt := hourlyPayload.generated_at
              timezone := hourlyPayload.timezone
              current := currentPoint
              currentRiskLabel := cls.label
              riskLevel := cls.level
              updatedLabel := updatedLabel
              weeklyAverageHeatIndex := weeklyAverage
              peakNext24h := ⟨peakPoint.map (·.heat_index_c),
                              peakPoint.map (·.timestamp)⟩
              highRiskHours24h := highRiskHours24h
              demographic := demographic
              vulnerablePopulation := vulnerablePopulation
              coolingCenterLoadPct := coolingCenterLoadPct
              hourlyPoints := hourlyPoints
              weatherHistory := weatherHistory
              forecastPoints := forecastPoints }

/-! ### HTTP route (`app/api/insights/metrics/route.ts`) -/

/-- Model of `Number(searchParams.get("days"))`: an absent parameter is `null`, and
`Number(null)` is `0`. -/
def daysParamNumber (daysParam : Option String) : Option ℚ :=
  match daysParam with
  | none => some 0
  | some s => jsNumber s

/-- The `days` computation of the route handler:
`Number.isFinite(daysParam) ? Math.min(Math.max(Math.floor(daysParam), 3), 30) : 7`. -/
def clampDays (daysParam : Option String) : ℤ :=
  match daysParamNumber daysParam with
  | some q => min (max ⌊q⌋ 3) 30
  | none => 7

/-- The `GET` handler of `app/api/insights/metrics/route.ts`. -/
def GET (env : JsEnv) (src : InsightSources)
    (cityParam daysParam : Option String) : Except String InsightSnapshot :=
  match cityParam.map jsTrim with
  | none => .error "city query parameter is required"
  | some city =>
    if city = "" then .error "city query parameter is required"
    else
      match buildInsightSnapshot env src city (clampDays daysParam) with
      | .ok snapshot => .ok snapshot
      | .error _ => .error "Unable to build insights snapshot"

/-! ### Concrete fixtures used by witnesses and counterexamples -/

/-- A demographic record whose 2020 population is 1 (smallest truthy
population). -/
def dPopOne : DemographicRecord :=
  ⟨"Imus", "city", none, some 1, none, none, none, none, none, none, "u", "t"⟩

/-- A demographic record with a 2020 population of 100000. -/
def dPop100k : DemographicRecord :=
  ⟨"Imus", "city", none, some 100000, none, none, none, none, none, none, "u", "t"⟩

/-- Host environment whose clock is at epoch 0 and that can parse exactly
the two timestamps `"t1"` and `"t2"` (both within the next 24 hours). -/
def envT : JsEnv :=
  ⟨fun s => if s = "t1" then some 1000 else if s = "t2" then some 50000000 else none,
   0, 0, fun _ => ""⟩

/-- Host environment for which no timestamp parses. -/
def envNoParse : JsEnv := ⟨fun _ => none, 0, 0, fun _ => ""⟩

def hp1 : HeatIndexPoint := ⟨"Imus", "t1", 30, 50, 42, none, none⟩

def hp2 : HeatIndexPoint := ⟨"Imus", "t2", 31, 55, 45, none, none⟩

/-- A reading whose timestamp does not parse. -/
def hpBad : HeatIndexPoint := ⟨"Imus", "bad", 31, 55, 100, none, none⟩

/-- A well-formed hourly payload with no locality entries at all. -/
def payloadEmpty : HourlyHeatIndexPayload :=
  ⟨some "2025-01-01T00:00:00", some "Asia/Manila", "C", []⟩

/-- Well-formed weather-history CSV with a header row and zero data rows. -/
def wCsvHeaderOnly : String :=
  "city,date,apparent_temperature_max,temperature_2m_max"

/-- Well-formed forecast CSV with a header row and zero data rows. -/
def pCsvHeaderOnly : String := "city,date,heat_index_pred,heat_index_actual,residual"

def DEM_HEADER_LINE : String :=
  "city,classification,district,population_2020,population_2015," ++
  "annual_growth_rate_pct,area_km2,density_per_km2,barangays," ++
  "province_population_share_pct,source_url,collected_at"

/-- Demographics CSV whose one row is for a different locality. -/
def demCsvNoMatch : String := DEM_HEADER_LINE ++ "\nTanza,city,,100,,,,,,,u,t"

/-- Demographics CSV whose matching row has a non-parsing population field. -/
def demCsvBadPop : String := DEM_HEADER_LINE ++ "\nImus,city,,n/a,,,,,,,u,t"

/-- Demographics CSV whose matching row has a population of 2, small enough
that every vulnerable count rounds to zero. -/
def demCsvPop2 : String := DEM_HEADER_LINE ++ "\nImus,city,,2,,,,,,,u,t"

/-- The hydrated record of `demCsvBadPop`. -/
def dBadPop : DemographicRecord :=
  ⟨"Imus", "city", none, none, none, none, none, none, none, none, "u", "t"⟩

/-- The hydrated record of `demCsvPop2`. -/
def dPop2 : DemographicRecord :=
  ⟨"Imus", "city", none, some 2, none, none, none, none, none, none, "u", "t"⟩

/-- All four sources present and well-formed, with zero rows for `"Imus"`. -/
def srcEmptyRows : InsightSources :=
  ⟨some payloadEmpty, some wCsvHeaderOnly, some pCsvHeaderOnly,
   some (DEM_HEADER_LINE ++ "\nTanza,city,,100,,,,,,,u,t")⟩

/-- The hourly source unreadable/malformed, everything else fine. -/
def srcHourlyDown : InsightSources :=
  ⟨none, some wCsvHeaderOnly, some pCsvHeaderOnly, some demCsvNoMatch⟩

/-- Sources whose demographics row has population 2 for `"Imus"`. -/
def srcPop2 : InsightSources :=
  ⟨some payloadEmpty, some wCsvHeaderOnly, some pCsvHeaderOnly, some demCsvPop2⟩

end InetReady

namespace InetReady

/-! ### Claim theorems -/

set_option maxRecDepth 8000

/-- C1: the risk classifier is a deterministic total function on the
rationals plus the absent case: `classify(null)` is `unknown`; `v ≥ 54` is
`extreme`; `41 ≤ v < 54` is `high`; `32 ≤ v < 41` is `moderate`;
`27 ≤ v < 32` is `caution`; `v < 27` is `comfort`; the bands are closed on
their lower bounds, so `classify(27)=caution`, `classify(41)=high`,
`classify(54)=extreme` and `classify(26.999)=comfort`. -/
theorem c1_risk_classifier_partition :
    (classifyRiskLevel none).level = RiskLevel.unknown ∧
    (∀ v : ℚ, 54 ≤ v → (classifyRiskLevel (some v)).level = .extreme) ∧
    (∀ v : ℚ, 41 ≤ v → v < 54 → (classifyRiskLevel (some v)).level = .high) ∧
    (∀ v : ℚ, 32 ≤ v → v < 41 → (classifyRiskLevel (some v)).level = .moderate) ∧
    (∀ v : ℚ, 27 ≤ v → v < 32 → (classifyRiskLevel (some v)).level = .caution) ∧
    (∀ v : ℚ, v < 27 → (classifyRiskLevel (some v)).level = .comfort) ∧
    (classifyRiskLevel (some 27)).level = .caution ∧
    (classifyRiskLevel (some 41)).level = .high ∧
    (classifyRiskLevel (some 54)).level = .extreme ∧
    (classifyRiskLevel (some 26.999)).level = .comfort := by
  refine ⟨rfl, ?_, ?_, ?_, ?_, ?_, by decide, by decide, by decide, by decide⟩ <;>
    intro v h <;> try intro h2
  all_goals
    simp only [classifyRiskLevel]
    split_ifs <;> first | rfl | linarith

/-- Witness for C1 at the concrete input 45 (inside the `high` band). -/
theorem c1_risk_classifier_partition_witness :
    (classifyRiskLevel (some 45)).level = .high :=
  c1_risk_classifier_partition.2.2.1 45 (by norm_num) (by norm_num)

/-- Counterexample for C2: at the known population 1 and level `comfort`
the vulnerable count rounds to 0, so the code returns `coolingCenterLoadPct
= null` while the claim's formula demands
`min(99, round(40 + 0.08 * 60)) = 45`. -/
theorem c2_estimator_counterexample :
    dPopOne.population2020 = some 1 ∧
    vulnerablePopulationOf (some dPopOne) .comfort =
      some (jsRound (1 * VULNERABLE_MULTIPLIER .comfort)) ∧
    coolingCenterLoadPctOf (vulnerablePopulationOf (some dPopOne) .comfort)
      .comfort = none ∧
    min 99 (jsRound (40 + VULNERABLE_MULTIPLIER .comfort * 60)) = 45 := by
  refine ⟨rfl, by decide, by decide, by decide⟩

/-- C2 (amended): for every risk level and known nonzero population `p`,
`vulnerableCount = round(p * multiplier)`; the load percentage equals
`min(99, round(40 + multiplier * 60))` whenever that count is nonzero and is
`null` when the count rounds to zero; the multiplier table lies in
`[0.08, 0.72]`, increases strictly along
`comfort < caution < moderate < high < extreme`, gives `unknown` a nonzero
multiplier, and the load percentage never reaches 100. -/
theorem c2_estimator_amended (level : RiskLevel) (d : DemographicRecord) (p : ℚ)
    (hp : d.population2020 = some p) (hnz : p ≠ 0) :
    vulnerablePopulationOf (some d) level =
      some (jsRound (p * VULNERABLE_MULTIPLIER level)) ∧
    (jsRound (p * VULNERABLE_MULTIPLIER level) ≠ 0 →
      coolingCenterLoadPctOf (vulnerablePopulationOf (some d) level) level =
        some (min 99 (jsRound (40 + VULNERABLE_MULTIPLIER level * 60)))) ∧
    (jsRound (p * VULNERABLE_MULTIPLIER level) = 0 →
      coolingCenterLoadPctOf (vulnerablePopulationOf (some d) level) level =
        none) ∧
    (2 / 25 : ℚ) ≤ VULNERABLE_MULTIPLIER level ∧
    VULNERABLE_MULTIPLIER level ≤ 18 / 25 ∧
    VULNERABLE_MULTIPLIER .comfort < VULNERABLE_MULTIPLIER .caution ∧
    VULNERABLE_MULTIPLIER .caution < VULNERABLE_MULTIPLIER .moderate ∧
    VULNERABLE_MULTIPLIER .moderate < VULNERABLE_MULTIPLIER .high ∧
    VULNERABLE_MULTIPLIER .high < VULNERABLE_MULTIPLIER .extreme ∧
    VULNERABLE_MULTIPLIER .unknown ≠ 0 ∧
    (∀ lv : RiskLevel, min 99 (jsRound (40 + VULNERABLE_MULTIPLIER lv * 60)) < 100) := by
  have hvp : vulnerablePopulationOf (some d) level =
      some (jsRound (p * VULNERABLE_MULTIPLIER level)) := by
    simp [vulnerablePopulationOf, hp, hnz]
  refine ⟨hvp, ?_, ?_, ?_, ?_, by decide, by decide, by decide, by decide,
    by decide, ?_⟩
  · intro h
    rw [hvp]
    simp [coolingCenterLoadPctOf, h]
  · intro h
    rw [hvp, h]
    simp [coolingCenterLoadPctOf]
  · cases level <;> norm_num [VULNERABLE_MULTIPLIER]
  · cases level <;> norm_num [VULNERABLE_MULTIPLIER]
  · intro lv
    cases lv <;> decide

/-- Witness for the amended C2: `estimate(moderate, 100000)` gives a
vulnerable count of 34000 and a load percentage of 60. -/
theorem c2_estimator_amended_witness :
    vulnerablePopulationOf (some dPop100k) .moderate = some 34000 ∧
    coolingCenterLoadPctOf (vulnerablePopulationOf (some dPop100k) .moderate)
      .moderate = some 60 := by
  have h := c2_estimator_amended .moderate dPop100k 100000 rfl (by norm_num)
  constructor
  · rw [h.1]; decide
  · rw [h.2.1 (by decide)]; decide

/-- The JS `reduce` with a strict-greater test keeps the first occurrence of
the maximum: folding `peakStep` either leaves the accumulator (when it
already dominates) or lands on a list element that strictly dominates the
accumulator and everything before it, and weakly dominates the whole list. -/
theorem foldl_peakStep_spec (xs : List HeatIndexPoint) (a : HeatIndexPoint) :
    (xs.foldl peakStep a = a ∧ ∀ y ∈ xs, y.heat_index_c ≤ a.heat_index_c) ∨
    (a.heat_index_c < (xs.foldl peakStep a).heat_index_c ∧
      ∃ l₁ l₂, xs = l₁ ++ (xs.foldl peakStep a) :: l₂ ∧
        (∀ y ∈ l₁, y.heat_index_c < (xs.foldl peakStep a).heat_index_c) ∧
        ∀ y ∈ xs, y.heat_index_c ≤ (xs.foldl peakStep a).heat_index_c) := by
  induction xs generalizing a with
  | nil => exact Or.inl ⟨rfl, by simp⟩
  | cons x rest ih =>
    rw [List.foldl_cons]
    by_cases hx : a.heat_index_c < x.heat_index_c
    · have hstep : peakStep a x = x := if_pos hx
      rw [hstep]
      rcases ih x with ⟨heq, hall⟩ | ⟨hlt, l₁, l₂, hsplit, hl1, hall⟩
      · right
        rw [heq]
        refine ⟨hx, [], rest, rfl, by simp, ?_⟩
        intro y hy
        rcases List.mem_cons.mp hy with h | h
        · subst h; exact le_refl _
        · exact hall y h
      · right
        refine ⟨lt_trans hx hlt, x :: l₁, l₂, by rw [List.cons_append, ← hsplit],
          ?_, ?_⟩
        · intro y hy
          rcases List.mem_cons.mp hy with h | h
          · subst h; exact hlt
          · exact hl1 y h
        · intro y hy
          rcases List.mem_cons.mp hy with h | h
          · subst h; exact le_of_lt hlt
          · exact hall y h
    · have hstep : peakStep a x = a := if_neg hx
      rw [hstep]
      rcases ih a with ⟨heq, hall⟩ | ⟨hlt, l₁, l₂, hsplit, hl1, hall⟩
      · left
        refine ⟨heq, ?_⟩
        intro y hy
        rcases List.mem_cons.mp hy with h | h
        · subst h; exact le_of_not_lt hx
        · exact hall y h
      · right
        refine ⟨hlt, x :: l₁, l₂, by rw [List.cons_append, ← hsplit], ?_, ?_⟩
        · intro y hy
          rcases List.mem_cons.mp hy with h | h
          · subst h; exact lt_of_le_of_lt (le_of_not_lt hx) hlt
          · exact hl1 y h
        · intro y hy
          rcases List.mem_cons.mp hy with h | h
          · subst h; exact le_trans (le_of_not_lt hx) (le_of_lt hlt)
          · exact hall y h

/-- The window selected by `computePeakNext24h` is non-empty whenever the
series is. -/
theorem peakWindowOf_ne_nil (env : JsEnv) (hourly : List HeatIndexPoint)
    (h : hourly ≠ []) : peakWindowOf env hourly ≠ [] := by
  rw [peakWindowOf]
  split_ifs with hf
  · have hlen : 0 < hourly.length := List.length_pos.mpr h
    apply List.ne_nil_of_length_pos
    rw [jsSliceFrom, List.length_drop]
    have hneg : ((-24 : ℤ) < 0) := by norm_num
    rw [if_pos hneg]
    omega
  · rw [List.isEmpty_iff] at hf
    exact hf

/-- C4: the forward-peak computation restricts the series to points with a
parseable timestamp in `[now, now + 24h]`; if that window is empty the
window falls back to the trailing 24 entries of the whole series; the result
over a non-empty series is the first occurrence of the maximum heat-stress
value of the window, and the result over an empty series is `null`. -/
theorem c4_peak_forward_window (env : JsEnv) (hourly : List HeatIndexPoint) :
    (∀ p : HeatIndexPoint, p ∈ futurePointsOf env hourly ↔ p ∈ hourly ∧
      ∃ ts, env.dateParse p.timestamp = some ts ∧ env.now ≤ ts ∧
        ts ≤ env.now + 24 * 60 * 60 * 1000) ∧
    (futurePointsOf env hourly = [] →
      peakWindowOf env hourly = hourly.drop (hourly.length - 24)) ∧
    (futurePointsOf env hourly ≠ [] →
      peakWindowOf env hourly = futurePointsOf env hourly) ∧
    (hourly = [] → computePeakNext24h env hourly = none) ∧
    (hourly ≠ [] → ∃ r, computePeakNext24h env hourly = some r ∧
      ∃ l₁ l₂, peakWindowOf env hourly = l₁ ++ r :: l₂ ∧
        (∀ y ∈ l₁, y.heat_index_c < r.heat_index_c) ∧
        ∀ y ∈ peakWindowOf env hourly, y.heat_index_c ≤ r.heat_index_c) := by
  refine ⟨?_, ?_, ?_, ?_, ?_⟩
  · intro p
    rw [futurePointsOf, List.mem_filter]
    constructor
    · rintro ⟨hmem, hpred⟩
      refine ⟨hmem, ?_⟩
      cases h : env.dateParse p.timestamp with
      | none => rw [h] at hpred; exact absurd hpred (by simp)
      | some ts =>
        rw [h] at hpred
        simp only [decide_eq_true_eq] at hpred
        exact ⟨ts, rfl, hpred.1, hpred.2⟩
    · rintro ⟨hmem, ts, hts, h1, h2⟩
      refine ⟨hmem, ?_⟩
      rw [hts]
      simp only [decide_eq_true_eq]
      exact ⟨h1, h2⟩
  · intro hf
    rw [peakWindowOf, if_pos (by rw [hf]; rfl), jsSliceFrom]
    congr 1
    rw [if_pos (by norm_num : ((-24 : ℤ) < 0))]
    omega
  · intro hf
    rw [peakWindowOf, if_neg (by rw [List.isEmpty_iff]; exact hf)]
  · intro h
    subst h
    rfl
  · intro h
    have hw := peakWindowOf_ne_nil env hourly h
    rcases hpw : peakWindowOf env hourly with _ | ⟨w, ws⟩
    · exact absurd hpw hw
    · have hcomp : computePeakNext24h env hourly =
          some ((w :: ws).foldl peakStep w) := by
        rw [computePeakNext24h, if_neg (by rw [List.isEmpty_iff]; exact h), hpw]
      refine ⟨(w :: ws).foldl peakStep w, hcomp, ?_⟩
      rw [List.foldl_cons, peakStep, if_neg (lt_irrefl _)]
      rcases foldl_peakStep_spec ws w with ⟨heq, hall⟩ | ⟨hlt, l₁, l₂, hsplit, hl1, hall⟩
      · rw [heq]
        refine ⟨[], ws, rfl, by simp, ?_⟩
        intro y hy
        rcases List.mem_cons.mp hy with hc | hc
        · subst hc; exact le_refl _
        · exact hall y hc
      · refine ⟨w :: l₁, l₂, by rw [List.cons_append, ← hsplit], ?_, ?_⟩
        · intro y hy
          rcases List.mem_cons.mp hy with hc | hc
          · subst hc; exact hlt
          · exact hl1 y hc
        · intro y hy
          rcases List.mem_cons.mp hy with hc | hc
          · subst hc; exact le_of_lt hlt
          · exact hall y hc

/-- Witness for C4 at a concrete series: the primary window keeps the two
parseable in-window points and the peak is the strictly larger one. -/
theorem c4_peak_forward_window_witness :
    ∃ r, computePeakNext24h envT [hp1, hp2, hpBad] = some r ∧
      ∃ l₁ l₂, peakWindowOf envT [hp1, hp2, hpBad] = l₁ ++ r :: l₂ ∧
        (∀ y ∈ l₁, y.heat_index_c < r.heat_index_c) ∧
        ∀ y ∈ peakWindowOf envT [hp1, hp2, hpBad],
          y.heat_index_c ≤ r.heat_index_c :=
  (c4_peak_forward_window envT [hp1, hp2, hpBad]).2.2.2.2 (by decide)

/-- A peak returned over a non-empty series is a member of the selected
window. -/
theorem computePeakNext24h_mem (env : JsEnv) (hourly : List HeatIndexPoint)
    (r : HeatIndexPoint) (h : hourly ≠ [])
    (hc : computePeakNext24h env hourly = some r) :
    r ∈ peakWindowOf env hourly := by
  rcases hpw : peakWindowOf env hourly with _ | ⟨w, ws⟩
  · exact absurd hpw (peakWindowOf_ne_nil env hourly h)
  · rw [computePeakNext24h, if_neg (by rw [List.isEmpty_iff]; exact h), hpw] at hc
    have hr : (w :: ws).foldl peakStep w = r := Option.some.inj hc
    rw [List.foldl_cons, peakStep, if_neg (lt_irrefl _)] at hr
    rcases foldl_peakStep_spec ws w with ⟨heq, -⟩ | ⟨-, l₁, l₂, hsplit, -, -⟩
    · rw [heq] at hr
      rw [← hr]
      exact List.mem_cons_self _ _
    · rw [hr] at hsplit
      refine List.mem_cons_of_mem _ ?_
      rw [hsplit]
      exact List.mem_append_right _ (List.mem_cons_self _ _)

/-- Counterexample for C7: with a series whose single entry has an
unparseable timestamp, the forward window is empty, the fallback keeps the
raw trailing entries, and the unparseable point is returned as the peak. -/
theorem c7_unparseable_counterexample :
    envNoParse.dateParse hpBad.timestamp = none ∧
    computePeakNext24h envNoParse [hpBad] = some hpBad :=
  ⟨rfl, by decide⟩

/-- C7 (amended): points with unparseable timestamps are ignored by the
primary forward window of the peak computation and by the threshold count
everywhere; but the fallback path of the peak computation (the trailing 24
raw entries) does include them, and such a point can be returned as the
peak.  Whenever the primary window is non-empty the returned peak has a
parseable timestamp. -/
theorem c7_unparseable_timestamps_amended (env : JsEnv)
    (hourly : List HeatIndexPoint) :
    (∀ p ∈ futurePointsOf env hourly, (env.dateParse p.timestamp).isSome) ∧
    (countHighRiskHours env hourly =
      countHighRiskHours env
        (hourly.filter fun p => (env.dateParse p.timestamp).isSome)) ∧
    (∀ r, futurePointsOf env hourly ≠ [] →
      computePeakNext24h env hourly = some r →
      (env.dateParse r.timestamp).isSome) := by
  have h1 : ∀ p ∈ futurePointsOf env hourly, (env.dateParse p.timestamp).isSome := by
    intro p hp
    rw [futurePointsOf, List.mem_filter] at hp
    cases h : env.dateParse p.timestamp with
    | none => rw [h] at hp; exact absurd hp.2 (by simp)
    | some ts => rfl
  refine ⟨h1, ?_, ?_⟩
  · rw [countHighRiskHours, countHighRiskHours]
    congr 1
    rw [List.filter_filter]
    apply List.filter_congr
    intro p _
    cases h : env.dateParse p.timestamp with
    | none => simp [h]
    | some ts => simp [h]
  · intro r hf hc
    have hne : hourly ≠ [] := by
      intro hcon
      subst hcon
      exact hf rfl
    have hmem := computePeakNext24h_mem env hourly r hne hc
    rw [peakWindowOf, if_neg (by rw [List.isEmpty_iff]; exact hf)] at hmem
    exact h1 r hmem

/-- Witness for the amended C7: over a series whose primary window is
non-empty, the returned peak has a parseable timestamp. -/
theorem c7_unparseable_timestamps_amended_witness :
    (envT.dateParse hp2.timestamp).isSome :=
  (c7_unparseable_timestamps_amended envT [hp1, hp2, hpBad]).2.2 hp2
    (by decide) (by decide)

/-- C6: the high-risk-hours count equals exactly the number of points whose
timestamp parses to an instant in `[now - 24h, now]` and whose heat-stress
value is at least 41; all other points contribute nothing. -/
theorem c6_high_risk_hours_count (env : JsEnv) (hourly : List HeatIndexPoint) :
    countHighRiskHours env hourly =
      hourly.countP (fun point =>
        match env.dateParse point.timestamp with
        | some ts =>
          decide (env.now - 24 * 60 * 60 * 1000 ≤ ts ∧ ts ≤ env.now ∧
            (41 : ℚ) ≤ point.heat_index_c)
        | none => false) := by
  rw [countHighRiskHours, List.countP_eq_length_filter]
  congr 1
  apply List.filter_congr
  intro point _
  cases h : env.dateParse point.timestamp with
  | none => rfl
  | some ts =>
    dsimp only
    by_cases h1 : ts < env.now - 24 * 60 * 60 * 1000 ∨ env.now < ts
    · rw [if_pos h1]
      symm
      rw [decide_eq_false_iff_not]
      rintro ⟨ha, hb, -⟩
      rcases h1 with h1 | h1 <;> omega
    · rw [if_neg h1]
      rw [not_or, not_lt, not_lt] at h1
      rw [decide_eq_decide]
      exact ⟨fun hh => ⟨h1.1, h1.2, hh⟩, fun hh => hh.2.2⟩

/-- C3: assembly fails with a single error (and no partial snapshot) as soon
as any dataset source cannot be read or parsed at the top level; whereas
with every source well-formed but holding zero rows for the requested
locality, assembly succeeds with a terminal snapshot whose hourly, history
and forecast series are empty and whose risk level is `unknown`. -/
theorem c3_hard_failure_vs_empty_rows (env : JsEnv) (src : InsightSources)
    (city : String) (days : ℤ) :
    ((src.hourly = none ∨ src.weatherHistory = none ∨ src.predictions = none ∨
        src.demographics = none) →
      buildInsightSnapshot env src city days = .error ()) ∧
    (∀ payload wRaw pRaw,
      src.hourly = some payload → src.weatherHistory = some wRaw →
      src.predictions = some pRaw → src.demographics.isSome →
      findHourlyEntry payload city = none →
      weatherRecordsFor wRaw city = [] →
      forecastRecordsFor pRaw city = [] →
      ∃ snap, buildInsightSnapshot env src city days = .ok snap ∧
        snap.hourlyPoints = [] ∧ snap.weatherHistory = [] ∧
        snap.forecastPoints = [] ∧ snap.riskLevel = .unknown) := by
  obtain ⟨o1, o2, o3, o4⟩ := src
  constructor
  · rintro (h | h | h | h) <;> dsimp only at h <;> subst h
    · rfl
    · cases o1 <;> rfl
    · cases o1 <;> cases o2 <;> rfl
    · cases o1 <;> cases o2 <;> cases o3 <;> rfl
  · rintro payload wRaw pRaw h1 h2 h3 h4 h5 h6 h7
    dsimp only at h1 h2 h3 h4
    subst h1; subst h2; subst h3
    obtain ⟨demRaw, hdem⟩ := Option.isSome_iff_exists.mp h4
    subst hdem
    refine ⟨_, rfl, ?_, ?_, ?_, ?_⟩
    · dsimp only
      rw [hourlyPointsOf, h5]
      rfl
    · dsimp only
      rw [loadWeatherHistory, h6]
      simp [jsSliceFrom]
    · dsimp only
      rw [loadForecastSeries, h7]
      rfl
    · dsimp only
      rw [hourlyPointsOf, h5, currentPointOf]
      rfl

/-- Witness for C3: with the hourly source down assembly errors out, and
with all sources well-formed but empty for `"Imus"` it succeeds with empty
series and `unknown` risk. -/
theorem c3_hard_failure_vs_empty_rows_witness :
    buildInsightSnapshot envNoParse srcHourlyDown "Imus" 7 = .error () ∧
    (∃ snap, buildInsightSnapshot envNoParse srcEmptyRows "Imus" 7 = .ok snap ∧
      snap.hourlyPoints = [] ∧ snap.weatherHistory = [] ∧
      snap.forecastPoints = [] ∧ snap.riskLevel = .unknown) :=
  ⟨(c3_hard_failure_vs_empty_rows envNoParse srcHourlyDown "Imus" 7).1
      (Or.inl rfl),
   (c3_hard_failure_vs_empty_rows envNoParse srcEmptyRows "Imus" 7).2
      payloadEmpty wCsvHeaderOnly pCsvHeaderOnly rfl rfl rfl rfl (by decide)
      (by decide) (by decide)⟩

/-- C5: when the population figure is unknown — no demographic record
matches, or the matched record's population field did not parse — the whole
vulnerability estimate is unknown (`demographic` is `null` in the no-match
case, `vulnerablePopulation` and `coolingCenterLoadPct` are `null` in both
cases), while every time-series-derived field of the snapshot is still the
one computed from the series data. -/
theorem c5_unknown_population_isolated (env : JsEnv)
    (payload : HourlyHeatIndexPayload) (wRaw pRaw demRaw city : String)
    (days : ℤ) :
    (findDemographicRecord demRaw city = none →
      ∃ snap, buildInsightSnapshot env
          ⟨some payload, some wRaw, some pRaw, some demRaw⟩ city days =
            .ok snap ∧
        snap.demographic = none ∧ snap.vulnerablePopulation = none ∧
        snap.coolingCenterLoadPct = none ∧
        snap.current = currentPointOf (findHourlyEntry payload city)
          (hourlyPointsOf (findHourlyEntry payload city)) ∧
        snap.riskLevel = (classifyRiskLevel ((currentPointOf
          (findHourlyEntry payload city)
          (hourlyPointsOf (findHourlyEntry payload city))).map
            (·.heat_index_c))).level ∧
        snap.weeklyAverageHeatIndex =
          weeklyAverageOf (loadWeatherHistory wRaw city days) ∧
        snap.peakNext24h = ⟨(computePeakNext24h env
            (hourlyPointsOf (findHourlyEntry payload city))).map
              (·.heat_index_c),
          (computePeakNext24h env
            (hourlyPointsOf (findHourlyEntry payload city))).map
              (·.timestamp)⟩ ∧
        snap.highRiskHours24h = countHighRiskHours env
          (hourlyPointsOf (findHourlyEntry payload city)) ∧
        snap.hourlyPoints = hourlyPointsOf (findHourlyEntry payload city) ∧
        snap.weatherHistory = loadWeatherHistory wRaw city days ∧
        snap.forecastPoints = loadForecastSeries env pRaw city days) ∧
    (∀ d, findDemographicRecord demRaw city = some d →
      d.population2020 = none →
      ∃ snap, buildInsightSnapshot env
          ⟨some payload, some wRaw, some pRaw, some demRaw⟩ city days =
            .ok snap ∧
        snap.demographic = some d ∧ snap.vulnerablePopulation = none ∧
        snap.coolingCenterLoadPct = none ∧
        snap.current = currentPointOf (findHourlyEntry payload city)
          (hourlyPointsOf (findHourlyEntry payload city)) ∧
        snap.riskLevel = (classifyRiskLevel ((currentPointOf
          (findHourlyEntry payload city)
          (hourlyPointsOf (findHourlyEntry payload city))).map
            (·.heat_index_c))).level ∧
        snap.weeklyAverageHeatIndex =
          weeklyAverageOf (loadWeatherHistory wRaw city days) ∧
        snap.peakNext24h = ⟨(computePeakNext24h env
            (hourlyPointsOf (findHourlyEntry payload city))).map
              (·.heat_index_c),
          (computePeakNext24h env
            (hourlyPointsOf (findHourlyEntry payload city))).map
              (·.timestamp)⟩ ∧
        snap.highRiskHours24h = countHighRiskHours env
          (hourlyPointsOf (findHourlyEntry payload city)) ∧
        snap.hourlyPoints = hourlyPointsOf (findHourlyEntry payload city) ∧
        snap.weatherHistory = loadWeatherHistory wRaw city days ∧
        snap.forecastPoints = loadForecastSeries env pRaw city days) := by
  constructor
  · intro hdem
    refine ⟨_, rfl, ?_, ?_, ?_, rfl, rfl, rfl, rfl, rfl, rfl, rfl, rfl⟩
    · exact hdem
    · dsimp only
      rw [hdem]
      rfl
    · dsimp only
      rw [hdem]
      rfl
  · intro d hdem hpop
    refine ⟨_, rfl, ?_, ?_, ?_, rfl, rfl, rfl, rfl, rfl, rfl, rfl, rfl⟩
    · exact hdem
    · dsimp only
      rw [hdem, vulnerablePopulationOf, hpop]
    · dsimp only
      rw [hdem, vulnerablePopulationOf, hpop]
      rfl

/-- Witness for C5: a demographics source whose matching row has the
non-numeric population field `"n/a"` yields `null` vulnerability fields
while the series-derived fields are still computed. -/
theorem c5_unknown_population_isolated_witness :
    ∃ snap, buildInsightSnapshot envNoParse
        ⟨some payloadEmpty, some wCsvHeaderOnly, some pCsvHeaderOnly,
         some demCsvBadPop⟩ "Imus" 7 = .ok snap ∧
      snap.demographic = some dBadPop ∧ snap.vulnerablePopulation = none ∧
      snap.coolingCenterLoadPct = none ∧
      snap.current = currentPointOf (findHourlyEntry payloadEmpty "Imus")
        (hourlyPointsOf (findHourlyEntry payloadEmpty "Imus")) ∧
      snap.riskLevel = (classifyRiskLevel ((currentPointOf
        (findHourlyEntry payloadEmpty "Imus")
        (hourlyPointsOf (findHourlyEntry payloadEmpty "Imus"))).map
          (·.heat_index_c))).level ∧
      snap.weeklyAverageHeatIndex =
        weeklyAverageOf (loadWeatherHistory wCsvHeaderOnly "Imus" 7) ∧
      snap.peakNext24h = ⟨(computePeakNext24h envNoParse
          (hourlyPointsOf (findHourlyEntry payloadEmpty "Imus"))).map
            (·.heat_index_c),
        (computePeakNext24h envNoParse
          (hourlyPointsOf (findHourlyEntry payloadEmpty "Imus"))).map
            (·.timestamp)⟩ ∧
      snap.highRiskHours24h = countHighRiskHours envNoParse
        (hourlyPointsOf (findHourlyEntry payloadEmpty "Imus")) ∧
      snap.hourlyPoints = hourlyPointsOf (findHourlyEntry payloadEmpty "Imus") ∧
      snap.weatherHistory = loadWeatherHistory wCsvHeaderOnly "Imus" 7 ∧
      snap.forecastPoints = loadForecastSeries envNoParse pCsvHeaderOnly
        "Imus" 7 :=
  (c5_unknown_population_isolated envNoParse payloadEmpty wCsvHeaderOnly
    pCsvHeaderOnly demCsvBadPop "Imus" 7).2 dBadPop (by decide) rfl

/-- Counterexample for C10: with a known population of 2 and risk level
`unknown` (multiplier 0.12), the vulnerable count rounds to 0 and the
assembled snapshot reports `vulnerablePopulation = some 0` — not `null` as
the claim states — while `coolingCenterLoadPct` is indeed `null`. -/
theorem c10_zero_count_counterexample :
    (buildInsightSnapshot envNoParse srcPop2 "Imus" 7).map
      (·.vulnerablePopulation) = .ok (some 0) ∧
    (buildInsightSnapshot envNoParse srcPop2 "Imus" 7).map
      (·.coolingCenterLoadPct) = .ok none :=
  ⟨rfl, rfl⟩

/-- C10 (amended): with a matched demographic record, a population that
parses to 0 yields `vulnerablePopulation = null` and
`coolingCenterLoadPct = null`; a nonzero population whose scaled count
rounds to 0 yields `vulnerablePopulation = 0` (not `null`) with a `null`
load percentage; and the load percentage is `null` whenever the vulnerable
count is `null` or zero, so the load output never distinguishes "estimated
zero at-risk" from "population unknown". -/
theorem c10_zero_count_amended (env : JsEnv)
    (payload : HourlyHeatIndexPayload) (wRaw pRaw demRaw city : String)
    (days : ℤ) (d : DemographicRecord)
    (hdem : findDemographicRecord demRaw city = some d) :
    ∃ snap, buildInsightSnapshot env
        ⟨some payload, some wRaw, some pRaw, some demRaw⟩ city days =
          .ok snap ∧
      (d.population2020 = some 0 →
        snap.vulnerablePopulation = none ∧ snap.coolingCenterLoadPct = none) ∧
      (∀ p : ℚ, d.population2020 = some p → p ≠ 0 →
        jsRound (p * VULNERABLE_MULTIPLIER snap.riskLevel) = 0 →
        snap.vulnerablePopulation = some 0 ∧
        snap.coolingCenterLoadPct = none) ∧
      ((snap.vulnerablePopulation = none ∨ snap.vulnerablePopulation = some 0) →
        snap.coolingCenterLoadPct = none) := by
  refine ⟨_, rfl, ?_, ?_, ?_⟩
  · intro h0
    constructor
    · dsimp only
      rw [hdem, vulnerablePopulationOf, h0]
      rfl
    · dsimp only
      rw [hdem, vulnerablePopulationOf, h0]
      rfl
  · intro p hp hnz hround
    dsimp only at hround ⊢
    rw [hdem, vulnerablePopulationOf, hp]
    dsimp only
    rw [if_neg hnz, hround]
    exact ⟨rfl, rfl⟩
  · intro h
    dsimp only at h ⊢
    rcases h with h | h <;> rw [h] <;> rfl

/-- Witness for the amended C10 at the concrete population 2. -/
theorem c10_zero_count_amended_witness :
    ∃ snap, buildInsightSnapshot envNoParse
        ⟨some payloadEmpty, some wCsvHeaderOnly, some pCsvHeaderOnly,
         some demCsvPop2⟩ "Imus" 7 = .ok snap ∧
      (dPop2.population2020 = some 0 →
        snap.vulnerablePopulation = none ∧ snap.coolingCenterLoadPct = none) ∧
      (∀ p : ℚ, dPop2.population2020 = some p → p ≠ 0 →
        jsRound (p * VULNERABLE_MULTIPLIER snap.riskLevel) = 0 →
        snap.vulnerablePopulation = some 0 ∧
        snap.coolingCenterLoadPct = none) ∧
      ((snap.vulnerablePopulation = none ∨ snap.vulnerablePopulation = some 0) →
        snap.coolingCenterLoadPct = none) :=
  c10_zero_count_amended envNoParse payloadEmpty wCsvHeaderOnly pCsvHeaderOnly
    demCsvPop2 "Imus" 7 dPop2 (by decide)

/-- Model of `heatIndexColor` on a present value: clamp below the first stop, clamp
above the last stop, otherwise walk the bracketing pairs. -/
theorem heatIndexColor_unfolded (v : ℚ) :
    heatIndexColor (some v) =
      if v ≤ 20 then "#0ea5e9"
      else if 55 ≤ v then "#7f1d1d"
      else interpolateInStops v HEAT_INDEX_COLOR_STOPS := rfl

/-- One step of the bracketing-pair walk at an enclosing pair with distinct
stop values. -/
theorem interpolateInStops_here (v : ℚ) (current next : ColorStop)
    (rest : List ColorStop) (h1 : current.value ≤ v) (h2 : v ≤ next.value)
    (hne : next.value - current.value ≠ 0) :
    interpolateInStops v (current :: next :: rest) =
      interpolateColors current.color next.color
        ((v - current.value) / (next.value - current.value)) := by
  rw [interpolateInStops, if_pos ⟨h1, h2⟩]
  dsimp only
  rw [if_neg hne]

/-- One step of the bracketing-pair walk past a non-enclosing pair. -/
theorem interpolateInStops_skip (v : ℚ) (current next : ColorStop)
    (rest : List ColorStop) (h : ¬(current.value ≤ v ∧ v ≤ next.value)) :
    interpolateInStops v (current :: next :: rest) =
      interpolateInStops v (next :: rest) := by
  rw [interpolateInStops, if_neg h]

/-- C8: the color mapper clamps at both ends (at or below the first stop's
value 20 it returns exactly the first stop's color, at or above the last
stop's value 55 exactly the last stop's color), linearly interpolates each
RGB channel by the fractional position between the bracketing stops in
between, and within a bracketing pair each interpolated channel value is
monotone in the input value (increasing when the pair's channel increases,
decreasing when it decreases). -/
theorem c8_color_mapper (v : ℚ) :
    (v ≤ 20 → heatIndexColor (some v) = "#0ea5e9") ∧
    (55 ≤ v → heatIndexColor (some v) = "#7f1d1d") ∧
    (20 < v → v ≤ 26 → heatIndexColor (some v) =
      interpolateColors "#0ea5e9" "#22d3ee" ((v - 20) / 6)) ∧
    (26 < v → v ≤ 30 → heatIndexColor (some v) =
      interpolateColors "#22d3ee" "#facc15" ((v - 26) / 4)) ∧
    (30 < v → v ≤ 34 → heatIndexColor (some v) =
      interpolateColors "#facc15" "#f97316" ((v - 30) / 4)) ∧
    (34 < v → v ≤ 40 → heatIndexColor (some v) =
      interpolateColors "#f97316" "#fb923c" ((v - 34) / 6)) ∧
    (40 < v → v ≤ 46 → heatIndexColor (some v) =
      interpolateColors "#fb923c" "#ef4444" ((v - 40) / 6)) ∧
    (46 < v → v < 55 → heatIndexColor (some v) =
      interpolateColors "#ef4444" "#7f1d1d" ((v - 46) / 9)) ∧
    (∀ a b v₁ v₂ x y : ℚ, a < b → a ≤ v₁ → v₁ ≤ v₂ → v₂ ≤ b →
      (x ≤ y → mixChannel x y ((v₁ - a) / (b - a)) ≤
        mixChannel x y ((v₂ - a) / (b - a))) ∧
      (y ≤ x → mixChannel x y ((v₂ - a) / (b - a)) ≤
        mixChannel x y ((v₁ - a) / (b - a)))) := by
  refine ⟨?_, ?_, ?_, ?_, ?_, ?_, ?_, ?_, ?_⟩
  · intro h
    rw [heatIndexColor_unfolded, if_pos h]
  · intro h
    rw [heatIndexColor_unfolded, if_neg (by linarith), if_pos h]
  · intro h1 h2
    rw [heatIndexColor_unfolded, if_neg (by linarith), if_neg (by linarith),
      HEAT_INDEX_COLOR_STOPS,
      interpolateInStops_here v ⟨20, "#0ea5e9"⟩ ⟨26, "#22d3ee"⟩ _
        (le_of_lt h1) h2 (by norm_num)]
    norm_num
  · intro h1 h2
    rw [heatIndexColor_unfolded, if_neg (by linarith), if_neg (by linarith),
      HEAT_INDEX_COLOR_STOPS,
      interpolateInStops_skip v _ _ _ (by rintro ⟨-, hc⟩; dsimp at hc; linarith),
      interpolateInStops_here v ⟨26, "#22d3ee"⟩ ⟨30, "#facc15"⟩ _
        (le_of_lt h1) h2 (by norm_num)]
    norm_num
  · intro h1 h2
    rw [heatIndexColor_unfolded, if_neg (by linarith), if_neg (by linarith),
      HEAT_INDEX_COLOR_STOPS,
      interpolateInStops_skip v _ _ _ (by rintro ⟨-, hc⟩; dsimp at hc; linarith),
      interpolateInStops_skip v _ _ _ (by rintro ⟨-, hc⟩; dsimp at hc; linarith),
      interpolateInStops_here v ⟨30, "#facc15"⟩ ⟨34, "#f97316"⟩ _
        (le_of_lt h1) h2 (by norm_num)]
    norm_num
  · intro h1 h2
    rw [heatIndexColor_unfolded, if_neg (by linarith), if_neg (by linarith),
      HEAT_INDEX_COLOR_STOPS,
      interpolateInStops_skip v _ _ _ (by rintro ⟨-, hc⟩; dsimp at hc; linarith),
      interpolateInStops_skip v _ _ _ (by rintro ⟨-, hc⟩; dsimp at hc; linarith),
      interpolateInStops_skip v _ _ _ (by rintro ⟨-, hc⟩; dsimp at hc; linarith),
      interpolateInStops_here v ⟨34, "#f97316"⟩ ⟨40, "#fb923c"⟩ _
        (le_of_lt h1) h2 (by norm_num)]
    norm_num
  · intro h1 h2
    rw [heatIndexColor_unfolded, if_neg (by linarith), if_neg (by linarith),
      HEAT_INDEX_COLOR_STOPS,
      interpolateInStops_skip v _ _ _ (by rintro ⟨-, hc⟩; dsimp at hc; linarith),
      interpolateInStops_skip v _ _ _ (by rintro ⟨-, hc⟩; dsimp at hc; linarith),
      interpolateInStops_skip v _ _ _ (by rintro ⟨-, hc⟩; dsimp at hc; linarith),
      interpolateInStops_skip v _ _ _ (by rintro ⟨-, hc⟩; dsimp at hc; linarith),
      interpolateInStops_here v ⟨40, "#fb923c"⟩ ⟨46, "#ef4444"⟩ _
        (le_of_lt h1) h2 (by norm_num)]
    norm_num
  · intro h1 h2
    rw [heatIndexColor_unfolded, if_neg (by linarith), if_neg (by linarith),
      HEAT_INDEX_COLOR_STOPS,
      interpolateInStops_skip v _ _ _ (by rintro ⟨-, hc⟩; dsimp at hc; linarith),
      interpolateInStops_skip v _ _ _ (by rintro ⟨-, hc⟩; dsimp at hc; linarith),
      interpolateInStops_skip v _ _ _ (by rintro ⟨-, hc⟩; dsimp at hc; linarith),
      interpolateInStops_skip v _ _ _ (by rintro ⟨-, hc⟩; dsimp at hc; linarith),
      interpolateInStops_skip v _ _ _ (by rintro ⟨-, hc⟩; dsimp at hc; linarith),
      interpolateInStops_here v ⟨46, "#ef4444"⟩ ⟨55, "#7f1d1d"⟩ _
        (le_of_lt h1) (le_of_lt h2) (by norm_num)]
    norm_num
  · intro a b v₁ v₂ x y hab h1 h12 h2
    have hpos : (0 : ℚ) < b - a := by linarith
    have hdiv : (v₁ - a) / (b - a) ≤ (v₂ - a) / (b - a) :=
      (div_le_div_iff_of_pos_right hpos).mpr (by linarith)
    constructor
    · intro hxy
      dsimp only [mixChannel]
      have hmul := mul_le_mul_of_nonneg_left hdiv (by linarith : (0 : ℚ) ≤ y - x)
      linarith
    · intro hyx
      dsimp only [mixChannel]
      have hmul := mul_le_mul_of_nonpos_left hdiv (by linarith : y - x ≤ 0)
      linarith

/-- Witness for C8 at the concrete value 28, bracketed by the stops at 26
and 30: the code interpolates at ratio 1/2 and renders `"#8ed082"`. -/
theorem c8_color_mapper_witness :
    heatIndexColor (some 28) =
      interpolateColors "#22d3ee" "#facc15" ((28 - 26) / 4) ∧
    heatIndexColor (some 28) = "#8ed082" := by
  have h := (c8_color_mapper 28).2.2.2.1 (by norm_num) (by norm_num)
  exact ⟨h, by rw [h]; decide⟩

/-- C9 (code bug): with the `days` query parameter absent,
`Number(null)` evaluates to `0`, so the route clamps it to 3 instead of
applying the intended default of 7; a present but non-numeric parameter does
default to 7, and numeric values are floored and clamped into `[3, 30]`. -/
theorem c9_days_clamp_bug :
    clampDays none = 3 ∧
    clampDays (some "oops") = 7 ∧
    clampDays (some "") = 3 ∧
    clampDays (some "2") = 3 ∧
    clampDays (some "5.9") = 5 ∧
    clampDays (some "100") = 30 ∧
    clampDays (some "10") = 10 := by
  decide

end InetReady
